import Mathlib

/-!
Shallow embedding of the launch scripts of the Isaac-GR00T fork:
  * `scripts/gr00t_finetune.py` — fine-tune launcher (config dataclass,
    dataset selection, training-argument assembly, metrics function, and
    the `__main__` GPU-validation / single-GPU / torchrun fan-out logic);
  * `scripts/server.py` — inference server launcher (variant B).

Pure functions of the scripts become Lean functions; the stateful
`__main__` block becomes a function from its explicit inputs (parsed
config, available GPU count, process environment, the child launcher's
return code) to an outcome value.  Python ints are `Int`, Python floats
are modelled as exact rationals `ℚ`, Python strings are `String`.
-/

namespace GrootScripts

/-- A Python value as it appears in a field of the `Config` dataclass
(`vars(config)` yields these).  Floats are modelled as exact rationals. -/
inductive PyValue where
  | bool (b : Bool)
  | int (n : Int)
  | float (q : ℚ)
  | str (s : String)
  | none
  | strList (xs : List String)
deriving DecidableEq, Repr

/-- `isinstance(value, bool)` test from the serialization loop. -/
def PyValue.isBool : PyValue → Bool
  | .bool _ => true
  | _ => false

/-- The apostrophe character, used by Python `repr` of strings inside a
list (`str(["a"])` is `['a']`). -/
def quoteChar : Char := Char.ofNat 39

/-- Python `str(value)` for the values appearing in `Config` fields
(`str(None)` is `"None"`, `str(True)` is `"True"`; the rendering of a
float abstracts Python's decimal repr as the rational's `toString`;
no claim depends on the float rendering). -/
def pyStr : PyValue → String
  | .bool true => "True"
  | .bool false => "False"
  | .int n => toString n
  | .float q => toString q
  | .str s => s
  | .none => "None"
  | .strList xs =>
      "[" ++ String.intercalate ", "
        (xs.map (fun s => String.singleton quoteChar ++ s ++ String.singleton quoteChar))
      ++ "]"

/-- The `Config` dataclass of `gr00t_finetune.py`, fields in declaration
order, with the dataclass defaults.  `video_keys`, `state_keys` and
`action_keys` are the extra instance attributes assigned in `__main__`
before anything else runs (their defaults here are the values `__main__`
assigns). -/
structure Config where
  dataset_path : String
  validation_dataset_path : Option String := Option.none
  output_dir : String := "/tmp/gr00t"
  data_config : String := "gr1_arms_only"
  num_arms : Int := 1
  num_cams : Int := 1
  batch_size : Int := 16
  max_steps : Int := 10000
  num_epochs : Int := 10
  num_gpus : Int := 1
  save_steps : Int := 500
  base_model_path : String := "nvidia/GR00T-N1-2B"
  tune_llm : Bool := false
  tune_visual : Bool := false
  tune_projector : Bool := true
  tune_diffusion_model : Bool := false
  resume : Bool := false
  learning_rate : ℚ := 1 / 10000
  weight_decay : ℚ := 1 / 100000
  warmup_ratio : ℚ := 5 / 100
  lora_rank : Int := 0
  lora_alpha : Int := 16
  lora_dropout : ℚ := 1 / 10
  dataloader_num_workers : Int := 8
  report_to : String := "wandb"
  embodiment_tag : String := "new_embodiment"
  video_backend : String := "decord"
  train_test_split : ℚ := 1
  video_keys : List String := ["video.image_cam_0", "video.image_cam_1"]
  state_keys : List String := ["state.arm_0"]
  action_keys : List String := ["action.arm_0"]
deriving DecidableEq, Repr

/-- The optional `validation_dataset_path` as the Python value stored in
the instance dict. -/
def pyOfOptStr : Option String → PyValue
  | Option.none => PyValue.none
  | Option.some s => PyValue.str s

/-- The fields of `vars(config)` that follow `validation_dataset_path`,
in dict (insertion) order. -/
def Config.varsTail (c : Config) : List (String × PyValue) :=
  [ ("output_dir", .str c.output_dir),
    ("data_config", .str c.data_config),
    ("num_arms", .int c.num_arms),
    ("num_cams", .int c.num_cams),
    ("batch_size", .int c.batch_size),
    ("max_steps", .int c.max_steps),
    ("num_epochs", .int c.num_epochs),
    ("num_gpus", .int c.num_gpus),
    ("save_steps", .int c.save_steps),
    ("base_model_path", .str c.base_model_path),
    ("tune_llm", .bool c.tune_llm),
    ("tune_visual", .bool c.tune_visual),
    ("tune_projector", .bool c.tune_projector),
    ("tune_diffusion_model", .bool c.tune_diffusion_model),
    ("resume", .bool c.resume),
    ("learning_rate", .float c.learning_rate),
    ("weight_decay", .float c.weight_decay),
    ("warmup_ratio", .float c.warmup_ratio),
    ("lora_rank", .int c.lora_rank),
    ("lora_alpha", .int c.lora_alpha),
    ("lora_dropout", .float c.lora_dropout),
    ("dataloader_num_workers", .int c.dataloader_num_workers),
    ("report_to", .str c.report_to),
    ("embodiment_tag", .str c.embodiment_tag),
    ("video_backend", .str c.video_backend),
    ("train_test_split", .float c.train_test_split),
    ("video_keys", .strList c.video_keys),
    ("state_keys", .strList c.state_keys),
    ("action_keys", .strList c.action_keys) ]

/-- `vars(config)`: the instance dict as an ordered key/value list
(dataclass fields in declaration order, then the three key lists
assigned in `__main__`). -/
def Config.vars (c : Config) : List (String × PyValue) :=
  ("dataset_path", PyValue.str c.dataset_path)
    :: ("validation_dataset_path", pyOfOptStr c.validation_dataset_path)
    :: c.varsTail

/-- Python `key.replace('_', '-')` for a single-character pattern:
replace every underscore by a dash. -/
def dashed (key : String) : String :=
  String.mk (key.toList.map (fun ch => if ch = '_' then '-' else ch))

/-- One iteration of the config-to-argv loop of `__main__`: a boolean
value serializes to `--key` (true) or `--no-key` (false); any other
value serializes to `--key` followed by `str(value)`. -/
def serializeField (key : String) (v : PyValue) : List String :=
  if v.isBool then
    match v with
    | .bool true => ["--" ++ dashed key]
    | _ => ["--no-" ++ dashed key]
  else
    ["--" ++ dashed key, pyStr v]

/-- The whole config-to-argv loop: serialize each `vars(config)` entry in
order and concatenate. -/
def serializeVars : List (String × PyValue) → List String
  | [] => []
  | kv :: rest => serializeField kv.1 kv.2 ++ serializeVars rest

/-- The full torchrun command assembled in the multi-GPU fan-out branch:
`["torchrun", "--standalone", "--nproc_per_node=<n>", "--nnodes=1",
script]` followed by the serialized config. -/
def torchrunCmd (c : Config) (script : String) : List String :=
  ["torchrun", "--standalone", "--nproc_per_node=" ++ toString c.num_gpus,
   "--nnodes=1", script] ++ serializeVars c.vars

/-- The slice of the process environment the script reads or writes:
the recursion guard `IS_TORCHRUN`, the device-visibility variable
`CUDA_VISIBLE_DEVICES`, and all other variables (passed through
untouched, as `os.environ.copy()` does). -/
structure EnvState where
  is_torchrun : Option String
  cuda_visible_devices : Option String
  other : List (String × String)
deriving DecidableEq, Repr

/-- `torch.cuda.device_count() if torch.cuda.is_available() else 1`. -/
def availableGpus (cudaAvailable : Bool) (deviceCount : Int) : Int :=
  if cudaAvailable then deviceCount else 1

/-- Outcome of the `__main__` block after argument parsing:
  * `assertionError` — one of the two `assert` statements fired; the
    process dies before `main` is called, so before any dataset or model
    object is constructed;
  * `ranMain` — `main(config)` is called in-process, with the recorded
    environment in effect at the call;
  * `spawned` — the torchrun child launcher is invoked with the recorded
    command line and child environment, and the process exits with the
    child launcher's return code (`sys.exit(subprocess.run(...).returncode)`). -/
inductive LaunchOutcome where
  | assertionError (msg : String)
  | ranMain (env : EnvState) (cfg : Config)
  | spawned (cmd : List String) (childEnv : EnvState) (exitCode : Int)
deriving DecidableEq, Repr

/-- Whether the outcome runs training in-process (calls `main`). -/
def LaunchOutcome.runsMainInProcess : LaunchOutcome → Bool
  | .ranMain _ _ => true
  | _ => false

/-- Whether the outcome invokes the torchrun multi-process launcher. -/
def LaunchOutcome.invokesTorchrun : LaunchOutcome → Bool
  | .spawned _ _ _ => true
  | _ => false

/-- The `__main__` block of `gr00t_finetune.py` after `tyro.cli` parsing
and the hardcoded key assignments: validate the GPU count with the two
`assert`s (in source order), then dispatch to the single-GPU in-process
branch, the torchrun-child in-process branch, or the torchrun fan-out.
`avail` is the available-GPU count, `env` the inherited environment,
`script` the absolute script path, `childReturncode` the return code of
the `subprocess.run` child when the fan-out branch spawns it. -/
def launcherMain (cfg : Config) (avail : Int) (env : EnvState)
    (script : String) (childReturncode : Int) : LaunchOutcome :=
  if ¬ (cfg.num_gpus ≤ avail) then
    .assertionError ("Number of GPUs requested (" ++ toString cfg.num_gpus ++
      ") is greater than the available GPUs (" ++ toString avail ++ ")")
  else if ¬ (cfg.num_gpus > 0) then
    .assertionError "Number of GPUs must be greater than 0"
  else if cfg.num_gpus = 1 then
    .ranMain { env with cuda_visible_devices := some "0" } cfg
  else if (env.is_torchrun.getD "0") = "1" then
    .ranMain env cfg
  else
    .spawned (torchrunCmd cfg script)
      { is_torchrun := some "1", cuda_visible_devices := Option.none,
        other := env.other }
      childReturncode

/-- Python `int(...)` applied to a number: truncation toward zero. -/
def pyInt (q : ℚ) : Int :=
  if 0 ≤ q then ⌊q⌋ else ⌈q⌉

/-- A dataset value as `main` builds it: either a `LeRobotSingleDataset`
loaded whole from a path, or a `torch.utils.data.Subset` of the dataset
at `path` holding the given indices. -/
inductive DatasetRef where
  | full (path : String)
  | subset (path : String) (indices : List Nat)
deriving DecidableEq, Repr

/-- The validation-dataset logic of `main` (the train/eval dataset pair).
`fullLen` is `len(full_dataset)`.  `perm` is the permutation of
`range fullLen` drawn from torch's global default generator by
`randperm` inside `random_split`: the call site passes no `generator=`
argument and no seed, so this draw is an ambient input of the run, not a
fixed one.  `random_split(ds, [a, b])` yields
`Subset(ds, perm[0:a])` and `Subset(ds, perm[a:a+b])`. -/
def selectDatasets (cfg : Config) (fullLen : Nat) (perm : List Nat) :
    DatasetRef × Option DatasetRef :=
  match cfg.validation_dataset_path with
  | Option.some vpath =>
      (DatasetRef.full cfg.dataset_path, some (DatasetRef.full vpath))
  | Option.none =>
      if cfg.train_test_split < 1 then
        let train_size : Int := pyInt (cfg.train_test_split * (fullLen : ℚ))
        let eval_size : Int := (fullLen : Int) - train_size
        (DatasetRef.subset cfg.dataset_path (perm.take train_size.toNat),
         some (DatasetRef.subset cfg.dataset_path
           ((perm.drop train_size.toNat).take eval_size.toNat)))
      else
        (DatasetRef.full cfg.dataset_path, Option.none)

/-- The fields of the `TrainingArguments` bundle that depend on the
config or on whether an evaluation dataset exists (plus the hardcoded
seed and checkpoint-retention limit, kept for fidelity). -/
structure TrainingArgsModel where
  output_dir : String
  per_device_train_batch_size : Int
  learning_rate : ℚ
  weight_decay : ℚ
  warmup_ratio : ℚ
  num_train_epochs : Int
  save_steps : Int
  evaluation_strategy : String
  save_total_limit : Int
  report_to : String
  seed : Int
  do_eval : Bool
deriving DecidableEq, Repr

/-- The `TrainingArguments(...)` construction in `main`, as a function of
the config and of whether `eval_dataset is not None`. -/
def mkTrainingArgs (cfg : Config) (evalPresent : Bool) : TrainingArgsModel :=
  { output_dir := cfg.output_dir,
    per_device_train_batch_size := cfg.batch_size,
    learning_rate := cfg.learning_rate,
    weight_decay := cfg.weight_decay,
    warmup_ratio := cfg.warmup_ratio,
    num_train_epochs := cfg.num_epochs,
    save_steps := cfg.save_steps,
    evaluation_strategy := if evalPresent then "epoch" else "no",
    save_total_limit := 8,
    report_to := cfg.report_to,
    seed := 42,
    do_eval := evalPresent }

/-- `(preds - labels) ** 2`, elementwise, on arrays flattened to lists. -/
def squaredErrors (preds labels : List ℚ) : List ℚ :=
  (List.zipWith (fun p l => p - l) preds labels).map (fun d => d ^ 2)

/-- `np.mean` over a flattened array (exact rational arithmetic in place
of float64). -/
def npMean (xs : List ℚ) : ℚ :=
  xs.sum / (xs.length : ℚ)

/-- `compute_metrics`: the mean squared error of predictions against
labels, reported under the key `"mse"`.  Arrays of identical shape are
modelled flattened. -/
def compute_metrics (preds labels : List ℚ) : String × ℚ :=
  ("mse", npMean (squaredErrors preds labels))

/-- One argument declaration of the `argparse` parser in `server.py`. -/
structure ServerArgSpec where
  flag : String
  required : Bool
deriving DecidableEq, Repr

/-- The complete list of `parser.add_argument` declarations in
`server.py`: exactly one flag, the required `--model_id`. -/
def serverArgSpecs : List ServerArgSpec :=
  [ { flag := "--model_id", required := true } ]

/-- The `Namespace` rebuilt in `server.py` after parsing: the parsed
model id plus the constants bound in the source. -/
structure ServerNamespace where
  model_path : String
  embodiment_tag : String
  server : Bool
  client : Bool
  host : String
  port : Int
  denoising_steps : Int
deriving DecidableEq, Repr

/-- `args = Namespace(model_path=args.model_id, embodiment_tag=..., ...)`. -/
def mkServerNamespace (model_id : String) : ServerNamespace :=
  { model_path := model_id,
    embodiment_tag := "new_embodiment",
    server := true,
    client := false,
    host := "0.0.0.0",
    port := 8080,
    denoising_steps := 4 }

/-- The constructor arguments of `Gr00tPolicy` that come from this
script (`model_path`, `embodiment_tag`, `denoising_steps`). -/
structure PolicyModel where
  model_path : String
  embodiment_tag : String
  denoising_steps : Int
deriving DecidableEq, Repr

/-- `Gr00tPolicy(model_path=args.model_path, ..., embodiment_tag=args.embodiment_tag,
denoising_steps=args.denoising_steps)`. -/
def mkPolicy (args : ServerNamespace) : PolicyModel :=
  { model_path := args.model_path,
    embodiment_tag := args.embodiment_tag,
    denoising_steps := args.denoising_steps }

/-- The server object: `RobotInferenceServer(policy, port=args.port)`.
Note the host is used only in the startup log line, not passed to the
server constructor. -/
structure ServerModel where
  policy : PolicyModel
  port : Int
deriving DecidableEq, Repr

/-- The whole construction of `server.py` as a function of the parsed
`--model_id` value. -/
def mkServer (model_id : String) : ServerModel :=
  { policy := mkPolicy (mkServerNamespace model_id),
    port := (mkServerNamespace model_id).port }

/-- A concrete configuration with every field at its default. -/
def exampleConfig : Config :=
  { dataset_path := "demo_data" }

/-- A concrete environment with the recursion guard and the visibility
variable unset. -/
def env0 : EnvState :=
  { is_torchrun := Option.none, cuda_visible_devices := Option.none, other := [] }

/-- Python `int(q)` agrees with the integer floor on nonnegative inputs. -/
theorem pyInt_eq_floor (q : ℚ) (h : 0 ≤ q) : pyInt q = ⌊q⌋ := by
  unfold pyInt
  rw [if_pos h]

/-- Evaluation of the `random_split` branch of the dataset-selection
logic: no validation path and a split ratio below one yield the two
`Subset` datasets cut from the generator's permutation. -/
theorem selectDatasets_split (cfg : Config) (N : Nat) (perm : List Nat)
    (h1 : cfg.validation_dataset_path = Option.none)
    (h2 : cfg.train_test_split < 1) :
    selectDatasets cfg N perm =
      (DatasetRef.subset cfg.dataset_path
        (perm.take (pyInt (cfg.train_test_split * (N : ℚ))).toNat),
       some (DatasetRef.subset cfg.dataset_path
        ((perm.drop (pyInt (cfg.train_test_split * (N : ℚ))).toNat).take
          ((N : Int) - pyInt (cfg.train_test_split * (N : ℚ))).toNat))) := by
  unfold selectDatasets
  rw [h1]
  rw [if_pos h2]

/-- Elementwise difference of a list with itself is all zeros. -/
theorem zipWith_sub_self (l : List ℚ) :
    List.zipWith (fun p q => p - q) l l = List.replicate l.length 0 := by
  induction l with
  | nil => rfl
  | cons a t ih => simp [List.replicate_succ, ih]

/-- C1: for every requested accelerator count, if it is non-positive or
exceeds the available device count (`torch.cuda.device_count()` when CUDA
is available, else 1), the launcher stops with an assertion error before
`main` runs — so before any dataset or model object is constructed — and
in particular neither runs training in-process nor invokes torchrun. -/
theorem gpu_count_validated_before_main (cfg : Config) (cuda : Bool)
    (devCount : Int) (env : EnvState) (script : String) (childReturncode : Int)
    (h : cfg.num_gpus ≤ 0 ∨ availableGpus cuda devCount < cfg.num_gpus) :
    (∃ msg, launcherMain cfg (availableGpus cuda devCount) env script childReturncode
        = LaunchOutcome.assertionError msg) ∧
    LaunchOutcome.runsMainInProcess
      (launcherMain cfg (availableGpus cuda devCount) env script childReturncode) = false ∧
    LaunchOutcome.invokesTorchrun
      (launcherMain cfg (availableGpus cuda devCount) env script childReturncode) = false := by
  have hout : ∃ msg, launcherMain cfg (availableGpus cuda devCount) env script childReturncode
      = LaunchOutcome.assertionError msg := by
    unfold launcherMain
    by_cases hle : cfg.num_gpus ≤ availableGpus cuda devCount
    · have hpos : ¬ (cfg.num_gpus > 0) := by omega
      rw [if_neg (by omega), if_pos hpos]
      exact ⟨_, rfl⟩
    · rw [if_pos hle]
      exact ⟨_, rfl⟩
  obtain ⟨msg, hmsg⟩ := hout
  refine ⟨⟨msg, hmsg⟩, ?_, ?_⟩ <;> rw [hmsg] <;> rfl

/-- Witness for C1: requesting 0 GPUs on a host with 2 CUDA devices hits
an assertion before `main`. -/
theorem gpu_count_validated_before_main_witness :
    ({ exampleConfig with num_gpus := 0 } : Config).num_gpus ≤ 0 ∧
    (∃ msg, launcherMain { exampleConfig with num_gpus := 0 }
        (availableGpus true 2) env0 "gr00t_finetune.py" 0
        = LaunchOutcome.assertionError msg) ∧
    LaunchOutcome.runsMainInProcess
      (launcherMain { exampleConfig with num_gpus := 0 }
        (availableGpus true 2) env0 "gr00t_finetune.py" 0) = false := by
  have h := gpu_count_validated_before_main { exampleConfig with num_gpus := 0 }
    true 2 env0 "gr00t_finetune.py" 0 (Or.inl (by decide))
  exact ⟨by decide, h.1, h.2.1⟩

/-- C2: whenever an explicit validation dataset path is configured, the
evaluation dataset is exactly the dataset loaded from that path and the
full primary dataset is the training dataset, whatever
`train_test_split` is. -/
theorem explicit_validation_path_priority (cfg : Config) (vpath : String)
    (N : Nat) (perm : List Nat)
    (h : cfg.validation_dataset_path = some vpath) :
    selectDatasets cfg N perm =
      (DatasetRef.full cfg.dataset_path, some (DatasetRef.full vpath)) ∧
    ∀ r : ℚ, selectDatasets { cfg with train_test_split := r } N perm =
      (DatasetRef.full cfg.dataset_path, some (DatasetRef.full vpath)) := by
  constructor
  · unfold selectDatasets
    rw [h]
  · intro r
    unfold selectDatasets
    show (match cfg.validation_dataset_path with
      | Option.some vpath => (DatasetRef.full cfg.dataset_path, some (DatasetRef.full vpath))
      | Option.none => _) = _
    rw [h]

/-- Witness for C2: with a validation path set and a 50% split ratio, the
eval dataset is still the validation-path dataset and training uses the
full primary dataset. -/
theorem explicit_validation_path_priority_witness :
    selectDatasets
        { exampleConfig with validation_dataset_path := some "val_data",
                             train_test_split := 1/2 } 10 [0, 1, 2] =
      (DatasetRef.full "demo_data", some (DatasetRef.full "val_data")) ∧
    ({ exampleConfig with validation_dataset_path := some "val_data",
                          train_test_split := 1/2 } : Config).train_test_split < 1 :=
  ⟨(explicit_validation_path_priority
      { exampleConfig with validation_dataset_path := some "val_data",
                           train_test_split := 1/2 } "val_data" 10 [0, 1, 2] rfl).1,
   by norm_num [exampleConfig]⟩

/-- C4: with no validation path and a split ratio of 1 no evaluation
dataset is constructed, the assembled training arguments disable
evaluation, and in general the bundle enables evaluation
(strategy "epoch", `do_eval` true) exactly when an evaluation dataset
exists. -/
theorem no_eval_when_full_split (cfg : Config) (N : Nat) (perm : List Nat)
    (h1 : cfg.validation_dataset_path = Option.none)
    (h2 : cfg.train_test_split = 1) :
    selectDatasets cfg N perm = (DatasetRef.full cfg.dataset_path, Option.none) ∧
    (mkTrainingArgs cfg (selectDatasets cfg N perm).2.isSome).evaluation_strategy = "no" ∧
    (mkTrainingArgs cfg (selectDatasets cfg N perm).2.isSome).do_eval = false ∧
    (∀ (c : Config) (b : Bool),
      ((mkTrainingArgs c b).evaluation_strategy = "epoch" ∧
        (mkTrainingArgs c b).do_eval = true) ↔ b = true) := by
  have hsel : selectDatasets cfg N perm = (DatasetRef.full cfg.dataset_path, Option.none) := by
    unfold selectDatasets
    rw [h1]
    rw [if_neg (by rw [h2]; exact lt_irrefl 1)]
  refine ⟨hsel, ?_, ?_, ?_⟩
  · rw [hsel]; rfl
  · rw [hsel]; rfl
  · intro c b
    cases b with
    | true => simp [mkTrainingArgs]
    | false => simp [mkTrainingArgs]

/-- Witness for C4: the all-defaults configuration (no validation path,
split ratio 1) yields no eval dataset and an evaluation-disabled
training-argument bundle. -/
theorem no_eval_when_full_split_witness :
    selectDatasets exampleConfig 5 [0, 1, 2, 3, 4] =
      (DatasetRef.full "demo_data", Option.none) ∧
    (mkTrainingArgs exampleConfig
      (selectDatasets exampleConfig 5 [0, 1, 2, 3, 4]).2.isSome).evaluation_strategy = "no" ∧
    (mkTrainingArgs exampleConfig
      (selectDatasets exampleConfig 5 [0, 1, 2, 3, 4]).2.isSome).do_eval = false := by
  have h := no_eval_when_full_split exampleConfig 5 [0, 1, 2, 3, 4] rfl rfl
  exact ⟨h.1, h.2.1, h.2.2.1⟩

/-- A configuration that reaches the `random_split` branch: no validation
path, split ratio one half. -/
def cfgSplitHalf : Config :=
  { exampleConfig with train_test_split := 1/2 }

/-- C3 (amended): with no validation path and split ratio `r < 1`,
`random_split` produces a train part of `floor(r * N)` indices and an
eval part of the remaining `N - floor(r * N)` indices of the permutation
drawn from torch's global default generator.  (The draw itself is not
seeded by this code: `random_split` is called without a `generator=`
argument, so the partition is a function of the ambient generator state,
not reproducible across runs — see the counterexample.) -/
theorem split_partition_sizes (cfg : Config) (N : Nat) (perm : List Nat) (r : ℚ)
    (h1 : cfg.validation_dataset_path = Option.none)
    (hr : cfg.train_test_split = r) (hr0 : 0 ≤ r) (hr1 : r < 1)
    (hperm : perm.length = N) :
    ∃ trainIdx evalIdx,
      selectDatasets cfg N perm =
        (DatasetRef.subset cfg.dataset_path trainIdx,
         some (DatasetRef.subset cfg.dataset_path evalIdx)) ∧
      trainIdx.length = (⌊r * (N : ℚ)⌋).toNat ∧
      evalIdx.length = N - (⌊r * (N : ℚ)⌋).toNat := by
  have hcast : (0 : ℚ) ≤ (N : ℚ) := Nat.cast_nonneg N
  have hq0 : 0 ≤ r * (N : ℚ) := mul_nonneg hr0 hcast
  have hpy : pyInt (cfg.train_test_split * (N : ℚ)) = ⌊r * (N : ℚ)⌋ := by
    rw [hr]; exact pyInt_eq_floor _ hq0
  have hfl0 : 0 ≤ ⌊r * (N : ℚ)⌋ := Int.floor_nonneg.mpr hq0
  have hflN : ⌊r * (N : ℚ)⌋ ≤ (N : Int) := by
    have hle : r * (N : ℚ) ≤ (N : ℚ) := by nlinarith
    calc ⌊r * (N : ℚ)⌋ ≤ ⌊(N : ℚ)⌋ := Int.floor_le_floor hle
      _ = (N : Int) := Int.floor_natCast N
  have hcond : cfg.train_test_split < 1 := by rw [hr]; exact hr1
  have hsel := selectDatasets_split cfg N perm h1 hcond
  rw [hpy] at hsel
  refine ⟨_, _, hsel, ?_, ?_⟩
  · rw [List.length_take, hperm]
    omega
  · rw [List.length_take, List.length_drop, hperm]
    omega

/-- Witness for C3 (amended): a concrete half split of a two-element
dataset yields one training index and one evaluation index. -/
theorem split_partition_sizes_witness :
    ∃ trainIdx evalIdx,
      selectDatasets cfgSplitHalf 2 [0, 1] =
        (DatasetRef.subset cfgSplitHalf.dataset_path trainIdx,
         some (DatasetRef.subset cfgSplitHalf.dataset_path evalIdx)) ∧
      trainIdx.length = 1 ∧ evalIdx.length = 1 := by
  obtain ⟨t, e, hsel, ht, he⟩ :=
    split_partition_sizes cfgSplitHalf 2 [0, 1] (1/2) rfl rfl
      (by norm_num) (by norm_num) rfl
  refine ⟨t, e, hsel, ?_, ?_⟩
  · rw [ht]; norm_num
  · rw [he]; norm_num

/-- Counterexample for C3: the code calls `random_split` with no
`generator=` argument and no seed, so the partition depends on the
permutation drawn from torch's ambient default generator; two runs with
the same `N = 2` and `r = 1/2` that draw different (equally valid)
permutations of `range 2` produce different partitions. -/
theorem split_not_reproducible_across_runs :
    cfgSplitHalf.validation_dataset_path = Option.none ∧
    cfgSplitHalf.train_test_split = 1/2 ∧
    List.Perm [0, 1] (List.range 2) ∧
    List.Perm [1, 0] (List.range 2) ∧
    selectDatasets cfgSplitHalf 2 [0, 1] ≠ selectDatasets cfgSplitHalf 2 [1, 0] := by
  refine ⟨rfl, rfl, by decide, by decide, ?_⟩
  have hlt : cfgSplitHalf.train_test_split < 1 := by
    norm_num [cfgSplitHalf, exampleConfig]
  have hpy : pyInt (cfgSplitHalf.train_test_split * ((2 : ℕ) : ℚ)) = 1 := by
    norm_num [cfgSplitHalf, exampleConfig, pyInt]
  have h1 := selectDatasets_split cfgSplitHalf 2 [0, 1] rfl hlt
  have h2 := selectDatasets_split cfgSplitHalf 2 [1, 0] rfl hlt
  rw [hpy] at h1 h2
  have e1 : selectDatasets cfgSplitHalf 2 [0, 1] =
      (DatasetRef.subset cfgSplitHalf.dataset_path [0],
       some (DatasetRef.subset cfgSplitHalf.dataset_path [1])) := by
    rw [h1]; rfl
  have e2 : selectDatasets cfgSplitHalf 2 [1, 0] =
      (DatasetRef.subset cfgSplitHalf.dataset_path [1],
       some (DatasetRef.subset cfgSplitHalf.dataset_path [0])) := by
    rw [h2]; rfl
  rw [e1, e2]
  intro hc
  simp only [Prod.mk.injEq, Option.some.injEq, DatasetRef.subset.injEq] at hc
  exact absurd hc.1.2 (by decide)

/-- C5: `compute_metrics` reports the mean squared error under the key
`"mse"`: identical predictions and labels give `("mse", 0)`, and a
constant elementwise difference `c` gives `("mse", c^2)` (numeric arrays
are modelled flattened, with exact rational arithmetic in place of
float64). -/
theorem compute_metrics_mse_values (preds labels : List ℚ) (c : ℚ)
    (hpos : 0 < preds.length) :
    (compute_metrics preds labels).1 = "mse" ∧
    (preds = labels → compute_metrics preds labels = ("mse", 0)) ∧
    (List.zipWith (fun p l => p - l) preds labels = List.replicate preds.length c →
      compute_metrics preds labels = ("mse", c ^ 2)) := by
  refine ⟨rfl, ?_, ?_⟩
  · intro h
    subst h
    unfold compute_metrics npMean squaredErrors
    rw [zipWith_sub_self]
    simp
  · intro h
    unfold compute_metrics npMean squaredErrors
    rw [h, List.map_replicate, List.sum_replicate, List.length_replicate,
      nsmul_eq_mul]
    have hne : (preds.length : ℚ) ≠ 0 := Nat.cast_ne_zero.mpr hpos.ne'
    rw [mul_div_cancel_left₀ _ hne]

/-- Witness for C5: equal arrays give mse 0; arrays differing by the
constant 2 in each element give mse 4. -/
theorem compute_metrics_mse_values_witness :
    compute_metrics [(3 : ℚ), 4] [3, 4] = ("mse", 0) ∧
    compute_metrics [(3 : ℚ), 4] [1, 2] = ("mse", 4) := by
  have h1 := compute_metrics_mse_values [(3 : ℚ), 4] [3, 4] 0 (by norm_num)
  have h2 := compute_metrics_mse_values [(3 : ℚ), 4] [1, 2] 2 (by norm_num)
  refine ⟨h1.2.1 rfl, ?_⟩
  have hd : List.zipWith (fun p l => p - l) [(3 : ℚ), 4] [1, 2] =
      List.replicate ([(3 : ℚ), 4]).length 2 := by
    rw [show List.replicate ([(3 : ℚ), 4]).length (2 : ℚ) = [(2 : ℚ), (2 : ℚ)] from rfl]
    norm_num
  rw [h2.2.2 hd]
  norm_num

/-- C6: in the config-to-argv serialization, a true boolean field `x_y`
becomes the single token `--x-y`, a false boolean field becomes
`--no-x-y`, and every non-boolean field becomes the token `--x-y`
followed by `str(value)`. -/
theorem bool_flag_serialization (key : String) (v : PyValue) :
    serializeField key (.bool true) = ["--" ++ dashed key] ∧
    serializeField key (.bool false) = ["--no-" ++ dashed key] ∧
    (PyValue.isBool v = false →
      serializeField key v = ["--" ++ dashed key, pyStr v]) := by
  refine ⟨rfl, rfl, ?_⟩
  intro h
  unfold serializeField
  rw [h]
  rfl

/-- Witness for C6: `tune_llm=True` gives `--tune-llm`, `tune_llm=False`
gives `--no-tune-llm`, `batch_size=16` gives `--batch-size 16`. -/
theorem bool_flag_serialization_witness :
    serializeField "tune_llm" (.bool true) = ["--tune-llm"] ∧
    serializeField "tune_llm" (.bool false) = ["--no-tune-llm"] ∧
    serializeField "batch_size" (.int 16) = ["--batch-size", "16"] := by
  refine ⟨?_, ?_, ?_⟩
  · rw [(bool_flag_serialization "tune_llm" (.int 0)).1]
    decide
  · rw [(bool_flag_serialization "tune_llm" (.int 0)).2.1]
    decide
  · rw [(bool_flag_serialization "batch_size" (.int 16)).2.2 rfl]
    decide

/-- C7: a top-level invocation (recursion guard unset) requesting 4 GPUs
on a host with 4 available devices spawns the torchrun child launcher
whose command line starts `torchrun --standalone --nproc_per_node=4
--nnodes=1 <script>`, with `IS_TORCHRUN=1` set in the child environment
(and the inherited visibility variable removed), and the process exits
with the child launcher's return code. -/
theorem multi_gpu_fanout (cfg : Config) (env : EnvState) (script : String)
    (childReturncode : Int) (hg : cfg.num_gpus = 4)
    (henv : env.is_torchrun = Option.none) :
    launcherMain cfg 4 env script childReturncode =
      LaunchOutcome.spawned (torchrunCmd cfg script)
        { is_torchrun := some "1", cuda_visible_devices := Option.none,
          other := env.other } childReturncode ∧
    ∃ rest, torchrunCmd cfg script =
      "torchrun" :: "--standalone" :: "--nproc_per_node=4" :: "--nnodes=1"
        :: script :: rest := by
  constructor
  · unfold launcherMain
    rw [if_neg (by omega), if_neg (by omega), if_neg (by omega)]
    rw [if_neg (by rw [henv]; decide)]
  · refine ⟨serializeVars cfg.vars, ?_⟩
    unfold torchrunCmd
    rw [hg]
    rfl

/-- Witness for C7: the concrete default config with `num_gpus=4`, an
empty environment and child return code 7 spawns torchrun with
`--nproc_per_node=4 --nnodes=1` and exits with code 7. -/
theorem multi_gpu_fanout_witness :
    launcherMain { exampleConfig with num_gpus := 4 } 4 env0 "gr00t_finetune.py" 7 =
      LaunchOutcome.spawned
        (torchrunCmd { exampleConfig with num_gpus := 4 } "gr00t_finetune.py")
        { is_torchrun := some "1", cuda_visible_devices := Option.none,
          other := [] } 7 ∧
    ∃ rest, torchrunCmd { exampleConfig with num_gpus := 4 } "gr00t_finetune.py" =
      "torchrun" :: "--standalone" :: "--nproc_per_node=4" :: "--nnodes=1"
        :: "gr00t_finetune.py" :: rest :=
  multi_gpu_fanout { exampleConfig with num_gpus := 4 } env0 "gr00t_finetune.py" 7
    rfl rfl

/-- C8: with `num_gpus=1` (and at least one available device, which
always holds since the available count is 1 when CUDA is absent), the
launcher sets `CUDA_VISIBLE_DEVICES=0` and calls `main` in-process, and
never invokes the torchrun multi-process launcher. -/
theorem single_gpu_in_process (cfg : Config) (avail : Int) (env : EnvState)
    (script : String) (childReturncode : Int)
    (hg : cfg.num_gpus = 1) (ha : 1 ≤ avail) :
    launcherMain cfg avail env script childReturncode =
      LaunchOutcome.ranMain { env with cuda_visible_devices := some "0" } cfg ∧
    LaunchOutcome.invokesTorchrun
      (launcherMain cfg avail env script childReturncode) = false := by
  have heq : launcherMain cfg avail env script childReturncode =
      LaunchOutcome.ranMain { env with cuda_visible_devices := some "0" } cfg := by
    unfold launcherMain
    rw [if_neg (by omega), if_neg (by omega), if_pos hg]
  refine ⟨heq, ?_⟩
  rw [heq]
  rfl

/-- Witness for C8: the all-defaults config (`num_gpus=1`) on a host with
one available device runs `main` in-process with visibility restricted
to device 0. -/
theorem single_gpu_in_process_witness :
    launcherMain exampleConfig 1 env0 "gr00t_finetune.py" 0 =
      LaunchOutcome.ranMain
        { env0 with cuda_visible_devices := some "0" } exampleConfig ∧
    LaunchOutcome.invokesTorchrun
      (launcherMain exampleConfig 1 env0 "gr00t_finetune.py" 0) = false :=
  single_gpu_in_process exampleConfig 1 env0 "gr00t_finetune.py" 0 rfl
    (by norm_num)

/-- C9: the server launcher's argparse declares exactly the one required
flag `--model_id`; the rebuilt namespace binds host `0.0.0.0` and port
8080; the server is constructed on that port and its policy on the given
checkpoint path with 4 denoising steps. -/
theorem server_cli_and_binding (model_id : String) :
    serverArgSpecs = [{ flag := "--model_id", required := true }] ∧
    serverArgSpecs.length = 1 ∧
    (mkServerNamespace model_id).host = "0.0.0.0" ∧
    (mkServerNamespace model_id).port = 8080 ∧
    (mkServer model_id).port = 8080 ∧
    (mkServer model_id).policy.denoising_steps = 4 ∧
    (mkServer model_id).policy.model_path = model_id ∧
    (mkServer model_id).policy.embodiment_tag = "new_embodiment" :=
  ⟨rfl, rfl, rfl, rfl, rfl, rfl, rfl, rfl⟩

/-- C10: a `None`-valued optional field serializes like any non-boolean
field, via `str(None) = "None"`; in particular a config with
`validation_dataset_path = None` that reaches the fan-out branch puts
the consecutive tokens `--validation-dataset-path` and `None` on the
child command line instead of omitting the flag. -/
theorem none_validation_path_serialized (cfg : Config) (script : String)
    (h : cfg.validation_dataset_path = Option.none) :
    (∀ key, serializeField key PyValue.none = ["--" ++ dashed key, "None"]) ∧
    ∃ A B, torchrunCmd cfg script =
      A ++ ["--validation-dataset-path", "None"] ++ B := by
  constructor
  · intro key
    rfl
  · refine ⟨["torchrun", "--standalone",
      "--nproc_per_node=" ++ toString cfg.num_gpus, "--nnodes=1", script,
      "--" ++ dashed "dataset_path", cfg.dataset_path],
      serializeVars cfg.varsTail, ?_⟩
    unfold torchrunCmd Config.vars
    rw [h]
    rfl

/-- Witness for C10: the default config's child command line carries
`--validation-dataset-path None`. -/
theorem none_validation_path_serialized_witness :
    serializeField "validation_dataset_path" PyValue.none =
      ["--validation-dataset-path", "None"] ∧
    ∃ A B, torchrunCmd exampleConfig "gr00t_finetune.py" =
      A ++ ["--validation-dataset-path", "None"] ++ B := by
  have h := none_validation_path_serialized exampleConfig "gr00t_finetune.py" rfl
  refine ⟨?_, h.2⟩
  rw [h.1 "validation_dataset_path"]
  decide

end GrootScripts
